import Mathlib

/-!
Shallow embedding of the control core of the xiaozhi-esp32 voice device:
OTA version checking (`src/main/ota.cc`), the application state machine
(`src/main/application.cc`) and the websocket session protocol
(`src/main/protocols/websocket_protocol.cc`).

Machine integers are modelled as `Int`/`Nat`; C++ exceptions (from
`std::stoi`) are modelled with `Option`: `none` is a thrown exception.
-/

namespace Xiaozhi

/-! ## Version parsing (`Ota::ParseVersion`, ota.cc lines 387–399)

`ParseVersion` splits the version string with
`std::getline(ss, segment, '.')` and converts each segment with
`std::stoi`.  `getline` yields no segment on an already-exhausted stream,
so `""` produces no segments and a trailing `"1.2."` produces `["1","2"]`,
while an interior empty segment (`"1..2"`) is produced as `""`. -/

/-- One `getline(ss, segment, DOT)` loop: `seg` is the current segment read
so far (reversed).  Reaching end of input emits the segment read so far;
hitting a dot emits the segment, and a following empty stream makes the
next `getline` fail without emitting. -/
def splitGo : List Char → List Char → List String
  | seg, [] => [String.mk seg.reverse]
  | seg, c :: rest =>
    if c = '.' then
      match rest with
      | [] => [String.mk seg.reverse]
      | r :: rs => String.mk seg.reverse :: splitGo [] (r :: rs)
    else splitGo (c :: seg) rest

/-- Dot-splitting of a version string, with `std::getline` semantics. -/
def splitOnDot (s : String) : List String :=
  match s.data with
  | [] => []
  | c :: cs => splitGo [] (c :: cs)

/-- Leading-whitespace skipping performed by `std::stoi` (via `strtol`). -/
def skipWs : List Char → List Char
  | c :: cs => if c = ' ' ∨ c = '\t' ∨ c = '\n' ∨ c = '\r' then skipWs cs else c :: cs
  | [] => []

/-- The maximal digit prefix of a character list, and the rest. -/
def takeDigits : List Char → List Char × List Char
  | c :: cs =>
    if c.isDigit then
      let (d, r) := takeDigits cs
      (c :: d, r)
    else ([], c :: cs)
  | [] => ([], [])

/-- Value of a digit string read in base 10. -/
def digitsToNat (ds : List Char) : Nat :=
  ds.foldl (fun acc c => acc * 10 + (c.toNat - '0'.toNat)) 0

/-- Conversion `std::stoi`: optional whitespace, optional sign, then a digit prefix.
`none` models the `std::invalid_argument` exception thrown when no digits
can be read (empty segment, or a segment not starting with a number). -/
def stoi? (s : String) : Option Int :=
  match skipWs s.data with
  | '-' :: rest =>
    let (d, _) := takeDigits rest
    if d.isEmpty then none else some (-(digitsToNat d : Int))
  | '+' :: rest =>
    let (d, _) := takeDigits rest
    if d.isEmpty then none else some (digitsToNat d : Int)
  | cs =>
    let (d, _) := takeDigits cs
    if d.isEmpty then none else some (digitsToNat d : Int)

/-- Conversion loop of `Ota::ParseVersion`: `std::stoi` on each segment in
order, collecting the results; a throwing segment propagates (`none`). -/
def stoiAll : List String → Option (List Int)
  | [] => some []
  | s :: rest =>
    match stoi? s with
    | none => none
    | some v =>
      match stoiAll rest with
      | none => none
      | some vs => some (v :: vs)

/-- Function `Ota::ParseVersion` (ota.cc lines 387–399): split on dots,
convert each segment with `std::stoi`.  A throwing segment makes the whole
call throw (`none`). -/
def ParseVersion (version : String) : Option (List Int) :=
  stoiAll (splitOnDot version)

/-- The comparison loop of `Ota::IsNewVersionAvailable` (ota.cc lines
402–418): compare component-wise over the common length; the first
strictly greater new component yields `true`, the first strictly smaller
yields `false`; with the whole common prefix equal, the result is
`newer.size() > current.size()`. -/
def isNewerList : List Int → List Int → Bool
  | c :: cs, n :: ns =>
    if n > c then true
    else if n < c then false
    else isNewerList cs ns
  | cs, ns => decide (cs.length < ns.length)

/-- Function `Ota::IsNewVersionAvailable(currentVersion, newVersion)`
(ota.cc lines 402–418).  A `none` result models a `std::stoi` exception
escaping from `ParseVersion`. -/
def IsNewVersionAvailable (currentVersion newVersion : String) : Option Bool := do
  let current ← ParseVersion currentVersion
  let newer ← ParseVersion newVersion
  pure (isNewerList current newer)

/-! ## Device state machine (`src/main/application.cc`) -/

/-- Enumeration `DeviceState` (application.h, spec §3). -/
inductive DeviceState
  | kDeviceStateUnknown
  | kDeviceStateStarting
  | kDeviceStateConfiguring
  | kDeviceStateIdle
  | kDeviceStateConnecting
  | kDeviceStateListening
  | kDeviceStateSpeaking
  | kDeviceStateUpgrading
  | kDeviceStateActivating
  | kDeviceStateFatalError
  deriving DecidableEq, Repr

/-- Enumeration `AbortReason` (application.h, spec §3). -/
inductive AbortReason
  | kAbortReasonNone
  | kAbortReasonWakeWordDetected
  deriving DecidableEq, Repr

/-- An encoded audio frame (a `std::vector<uint8_t>`), one byte per entry. -/
abbrev AudioFrame : Type := List Nat

/-- Display status labels passed to `display->SetStatus` (values live in the
locale asset `Lang::Strings`, outside the core; we model them by tag). -/
inductive StatusTag
  | standby
  | connecting
  | listening
  | speaking
  deriving DecidableEq, Repr

/-- Externally visible side effects of the application core, in program
order.  Each constructor is one collaborator call in application.cc. -/
inductive Effect
  | waitBackgroundTasks                      -- background_task_->WaitForCompletion()
  | ledStateChanged                          -- led->OnStateChanged()
  | setStatus (s : StatusTag)                -- display->SetStatus(...)
  | setEmotion (e : String)                  -- display->SetEmotion(...)
  | setChatMessage (role text : String)      -- display->SetChatMessage(...)
  | resetDecoderState                        -- opus_decoder_->ResetState()
  | resetEncoderState                        -- opus_encoder_->ResetState()
  | audioProcessorStart                      -- audio_processor_.Start()
  | audioProcessorStop                       -- audio_processor_.Stop()
  | updateIotStates                          -- UpdateIotStates()
  | vTaskDelayMs (ms : Nat)                  -- vTaskDelay(pdMS_TO_TICKS(ms))
  | enableOutput (b : Bool)                  -- codec->EnableOutput(...)
  | sendAbortSpeaking (r : AbortReason)      -- protocol_->SendAbortSpeaking(...)
  | opusDecodeFrame (f : AudioFrame)         -- opus_decoder_->Decode(...)
  | outputData (pcm : List Int)              -- codec->OutputData(...)
  deriving DecidableEq, Repr

/-- The mutable fields of `Application` the verified claims observe.
`last_output_time` is a timestamp in an abstract clock; `decoder_fresh`
records whether the decoder's internal state has just been reset. -/
structure AppState where
  device_state : DeviceState
  clock_ticks : Nat
  audio_decode_queue : List AudioFrame
  last_output_time : Nat
  decoder_fresh : Bool
  aborted : Bool
  deriving DecidableEq, Repr

/-- Method `Application::ResetDecoder` (application.cc lines 883–888): reset the
decoder state, clear the decode queue, restart the silence timer (`now` is
the current `steady_clock` reading). -/
def ResetDecoder (now : Nat) (st : AppState) : AppState :=
  { st with
    decoder_fresh := true
    audio_decode_queue := []
    last_output_time := now }

/-- Method `Application::SetDeviceState` (application.cc lines 1072–1165).
`useAudioProcessor` is the `CONFIG_USE_AUDIO_PROCESSOR` build flag.
Returns the state after the call and the collaborator calls it made, in
order.  When the requested state equals the current one the function
returns immediately. -/
def SetDeviceState (useAudioProcessor : Bool) (now : Nat) (state : DeviceState)
    (st : AppState) : AppState × List Effect :=
  if st.device_state = state then (st, [])
  else
    let previous_state := st.device_state
    let st := { st with clock_ticks := 0, device_state := state }
    let pre : List Effect := [.waitBackgroundTasks, .ledStateChanged]
    match state with
    | .kDeviceStateUnknown | .kDeviceStateIdle =>
      (st, pre ++ [.setStatus .standby, .setEmotion "neutral"]
        ++ (if useAudioProcessor then [.audioProcessorStop] else []))
    | .kDeviceStateConnecting =>
      (st, pre ++ [.setStatus .connecting, .setEmotion "neutral",
        .setChatMessage "system" ""])
    | .kDeviceStateListening =>
      (ResetDecoder now st,
        pre ++ [.setStatus .listening, .setEmotion "neutral",
          .resetDecoderState, .resetEncoderState]
        ++ (if useAudioProcessor then [.audioProcessorStart] else [])
        ++ [.updateIotStates]
        ++ (if previous_state = .kDeviceStateSpeaking then [.vTaskDelayMs 120] else []))
    | .kDeviceStateSpeaking =>
      (ResetDecoder now st,
        pre ++ [.setStatus .speaking, .resetDecoderState, .enableOutput true]
        ++ (if useAudioProcessor then [.audioProcessorStop] else []))
    | _ => (st, pre)

/-- Method `Application::AbortSpeaking` (application.cc lines 1061–1068): set the
abort flag, then notify the session of the abort with its reason. -/
def AbortSpeaking (reason : AbortReason) (st : AppState) : AppState × List Effect :=
  ({ st with aborted := true }, [.sendAbortSpeaking reason])

/-- The decode-worker closure scheduled by `Application::OutputAudio`
(application.cc lines 937–966), run later on the background worker.
`aborted` is the value of `aborted_` the closure reads when it runs;
`decode` is the opus decoder (`none` = `Decode` returned false);
`sampleRateMismatch` and `resample` model `opus_decode_sample_rate_ !=
codec->output_sample_rate()` and `output_resampler_.Process`. -/
def decodeWorkerRun (aborted : Bool) (decode : AudioFrame → Option (List Int))
    (sampleRateMismatch : Bool) (resample : List Int → List Int)
    (opus : AudioFrame) : List Effect :=
  if aborted then []
  else
    match decode opus with
    | none => [.opusDecodeFrame opus]
    | some pcm =>
      [.opusDecodeFrame opus,
       .outputData (if sampleRateMismatch then resample pcm else pcm)]

/-- The `OnIncomingAudio` handler registered in `Application::Start`
(application.cc lines 511–519): under the queue mutex, append the inbound
frame to the decode queue only when the device is speaking; otherwise the
frame is dropped. -/
def onIncomingAudio (data : AudioFrame) (st : AppState) : AppState :=
  if st.device_state = .kDeviceStateSpeaking then
    { st with audio_decode_queue := st.audio_decode_queue ++ [data] }
  else st

/-- The websocket `OnData` routing (websocket_protocol.cc lines 106–138)
for a binary payload: when an incoming-audio callback is registered it is
invoked with the payload; `app` is the application state the registered
callback (`onIncomingAudio`) mutates. -/
def wsRouteBinary (callbackRegistered : Bool) (payload : AudioFrame)
    (app : AppState) : AppState :=
  if callbackRegistered then onIncomingAudio payload app else app

/-! ## Version-check loop (`Application::CheckNewVersion`,
application.cc lines 71–217) -/

/-- Outcome of one `ota_.CheckVersion()` poll as seen by the loop:
failure, or success qualified by `HasNewVersion()` / `HasActivationCode()`. -/
inductive CheckOutcome
  | fail          -- CheckVersion() returned false
  | okNew         -- success, HasNewVersion()
  | okActivation  -- success, no new version, HasActivationCode()
  | okLatest      -- success, neither
  deriving DecidableEq, Repr

/-- Collaborator calls made by `CheckNewVersion`, in program order. -/
inductive OtaAction
  | backoff60s                               -- vTaskDelay(60 s) before retry
  | alertUpgrade                             -- Alert(OTA_UPGRADE, ...)
  | waitForIdle                              -- poll until device Idle
  | setState (s : DeviceState)               -- SetDeviceState(...)
  | startUpgrade                             -- ota_.StartUpgrade(...)
  | markCurrentVersionValid                  -- ota_.MarkCurrentVersionValid()
  | showCurrentVersion                       -- display->ShowNotification(version)
  | showActivationCode                       -- ShowActivationCode()
  | clearChatMessage                         -- display->SetChatMessage("system","")
  | playSuccessSound                         -- PlaySound(P3_SUCCESS)
  deriving DecidableEq, Repr

/-- How `CheckNewVersion` returned. -/
inductive CheckExit
  | retriesExhausted  -- "Too many retries, exit version check"
  | upgradeScheduled  -- returned after scheduling the upgrade task
  | finishedIdle      -- broke out of the loop with the device Idle
  | outOfTrace        -- the supplied outcome trace ended with the loop still running
  deriving DecidableEq, Repr

/-- The `while (true)` loop of `Application::CheckNewVersion`
(application.cc lines 84–217), driven by a finite trace of poll outcomes.
`retry` is `retry_count`; `MAX_RETRY` is 10.  On failure the counter is
incremented and checked against the maximum before the 60 s backoff; any
success resets it to 0.  The upgrade branch (outcome `okNew`) alerts,
waits for `Idle`, schedules `SetDeviceState(kDeviceStateUpgrading)` plus
`StartUpgrade`, and returns. -/
def checkNewVersionLoop : Nat → List CheckOutcome → CheckExit × List OtaAction
  | _, [] => (.outOfTrace, [])
  | retry, o :: rest =>
    match o with
    | .fail =>
      if retry + 1 ≥ 10 then (.retriesExhausted, [])
      else
        let (exit, acts) := checkNewVersionLoop (retry + 1) rest
        (exit, .backoff60s :: acts)
    | .okNew =>
      (.upgradeScheduled,
       [.alertUpgrade, .waitForIdle, .setState .kDeviceStateUpgrading, .startUpgrade])
    | .okActivation =>
      let (exit, acts) := checkNewVersionLoop 0 rest
      (exit, [.markCurrentVersionValid, .showCurrentVersion,
        .setState .kDeviceStateActivating, .showActivationCode] ++ acts)
    | .okLatest =>
      (.finishedIdle,
       [.markCurrentVersionValid, .showCurrentVersion,
        .setState .kDeviceStateIdle, .clearChatMessage, .playSuccessSound])

/-! ## Websocket session protocol
(`WebsocketProtocol::OpenAudioChannel`, websocket_protocol.cc) -/

/-- The error strings `SetError` records (`Lang::Strings` values, by tag). -/
inductive WsError
  | serverNotFound
  | serverTimeout
  deriving DecidableEq, Repr

/-- The external events `OpenAudioChannel` depends on: whether
`websocket_->Connect` succeeds, whether the `SERVER_HELLO` event bit is
set within the 10 s wait, and whether an `OnAudioChannelOpened` callback
has been registered. -/
structure WsEnv where
  connectOk : Bool
  helloWithin10s : Bool
  openedCallbackRegistered : Bool
  deriving DecidableEq, Repr

/-- The observable outcome of one `OpenAudioChannel` call. -/
structure WsOpenResult where
  success : Bool                       -- the returned bool
  error : Option WsError               -- error recorded via SetError
  helloSent : Bool                     -- the client "hello" was sent
  openedCallbackInvoked : Bool         -- on_audio_channel_opened_ ran
  deriving DecidableEq, Repr

/-- Method `WebsocketProtocol::OpenAudioChannel` (websocket_protocol.cc lines
79–198): discard any previous socket, clear the error flag, connect; on
connect failure record `SERVER_NOT_FOUND` and return false.  Otherwise
send the client hello and wait up to 10 s for the server-hello event; on
timeout record `SERVER_TIMEOUT` and return false.  Only on the success
path is the audio-channel-opened callback invoked (when registered). -/
def OpenAudioChannel (env : WsEnv) : WsOpenResult :=
  if ¬ env.connectOk then
    { success := false, error := some .serverNotFound,
      helloSent := false, openedCallbackInvoked := false }
  else if ¬ env.helloWithin10s then
    { success := false, error := some .serverTimeout,
      helloSent := true, openedCallbackInvoked := false }
  else
    { success := true, error := none,
      helloSent := true, openedCallbackInvoked := env.openedCallbackRegistered }

/-! ## Manifest processing (`Ota::CheckVersion`, ota.cc lines 41–202) -/

/-- The parsed OTA manifest (the cJSON tree after a successful
`cJSON_Parse`).  Each field is `none` when the JSON object is absent;
inner `Option`s are absent members of a present object. -/
structure Manifest where
  activation : Option (Option String × Option String)  -- (message, code)
  mqtt : Option (List (String × String))               -- string entries, in order
  server_time : Option (Option Int × Option Int)       -- (timestamp ms, tz offset min)
  firmware : Option (Option String × Option String)    -- (version, url)
  deriving DecidableEq, Repr

/-- The fields of `Ota` that `CheckVersion` mutates. -/
structure OtaState where
  current_version : String
  has_activation_code : Bool
  activation_message : String
  activation_code : String
  has_mqtt_config : Bool
  has_server_time : Bool
  firmware_version : String
  firmware_url : String
  has_new_version : Bool
  deriving DecidableEq, Repr

/-- External mutable system state touched by `CheckVersion`: the system
clock (`settimeofday`), modelled as the millisecond value written (or
`none` if never set), and the persisted `"mqtt"` settings namespace,
modelled as an association list (external key-value settings store). -/
structure SysState where
  clockMs : Option Int
  mqttSettings : List (String × String)
  deriving DecidableEq, Repr

/-- Collaborator call `Settings::GetString`: the stored value, or `""` when the key is
absent (contract of the external settings store). -/
def getSetting (settings : List (String × String)) (key : String) : String :=
  ((settings.find? (fun kv => kv.1 = key)).map Prod.snd).getD ""

/-- Collaborator call `Settings::SetString`: store a value under a key. -/
def setSetting (settings : List (String × String)) (key value : String) :
    List (String × String) :=
  if (settings.find? (fun kv => kv.1 = key)).isSome then
    settings.map (fun kv => if kv.1 = key then (key, value) else kv)
  else settings ++ [(key, value)]

/-- The `cJSON_ArrayForEach` loop over the `"mqtt"` object (ota.cc lines
113–121): each string entry whose current stored value differs is
rewritten; unchanged entries are left alone. -/
def persistMqtt (settings : List (String × String))
    (entries : List (String × String)) : List (String × String) :=
  entries.foldl
    (fun acc kv => if getSetting acc kv.1 ≠ kv.2 then setSetting acc kv.1 kv.2 else acc)
    settings

/-- Method `Ota::CheckVersion` from a successful `cJSON_Parse` onward (ota.cc
lines 88–202).  Processing order is that of the source: activation, mqtt
persistence, server-time clock set, then the firmware object — whose
absence (or a missing version/url member) returns `false` only after the
earlier side effects have already happened.  The final version comparison
may throw out of `std::stoi`; `none` models that exception escaping. -/
def CheckVersionParsed (m : Manifest) (ota : OtaState) (sys : SysState) :
    Option (Bool × OtaState × SysState) :=
  let ota := { ota with has_activation_code := false }
  let ota :=
    match m.activation with
    | none => ota
    | some (msg, code) =>
      { ota with
        activation_message := msg.getD ota.activation_message
        activation_code := code.getD ota.activation_code
        has_activation_code := true }
  let ota := { ota with has_mqtt_config := false }
  let (ota, sys) :=
    match m.mqtt with
    | none => (ota, sys)
    | some entries =>
      ({ ota with has_mqtt_config := true },
       { sys with mqttSettings := persistMqtt sys.mqttSettings entries })
  let ota := { ota with has_server_time := false }
  let (ota, sys) :=
    match m.server_time with
    | none => (ota, sys)
    | some (ts?, tz?) =>
      match ts? with
      | none => (ota, sys)
      | some ts =>
        ({ ota with has_server_time := true },
         { sys with clockMs := some (ts + (tz?.getD 0) * 60 * 1000) })
  match m.firmware with
  | none => some (false, ota, sys)
  | some (version?, url?) =>
    match version? with
    | none => some (false, ota, sys)
    | some version =>
      match url? with
      | none => some (false, ota, sys)
      | some url =>
        let ota := { ota with firmware_version := version, firmware_url := url }
        match IsNewVersionAvailable ota.current_version version with
        | none => none
        | some isNew => some (true, { ota with has_new_version := isNew }, sys)

/-! ## Theorems: version comparison (claims C1, C2, C10) -/

/-- Equal heads are skipped by the comparison loop. -/
lemma isNewerList_cons (a : Int) (cs ns : List Int) :
    isNewerList (a :: cs) (a :: ns) = isNewerList cs ns := by
  simp [isNewerList]

/-- With the components before index `i` equal and the components at `i`
different, the comparison loop answers exactly "is the new component at
`i` strictly greater". -/
lemma isNewerList_first_diff (i : Nat) : ∀ (c n : List Int) (a b : Int),
    (∀ j, j < i → c.get? j = n.get? j) →
    c.get? i = some a → n.get? i = some b → a ≠ b →
    isNewerList c n = decide (a < b) := by
  induction i with
  | zero =>
    intro c n a b _ ha hb hab
    cases c with
    | nil => simp at ha
    | cons a' cs =>
      cases n with
      | nil => simp at hb
      | cons b' ns =>
        simp at ha hb
        subst ha; subst hb
        rcases lt_trichotomy a' b' with h | h | h
        · simp [isNewerList, h]
        · exact absurd h hab
        · simp [isNewerList, h, lt_asymm h]
  | succ i ih =>
    intro c n a b hpre ha hb hab
    cases c with
    | nil => simp at ha
    | cons a' cs =>
      cases n with
      | nil => simp at hb
      | cons b' ns =>
        have h0 := hpre 0 (Nat.succ_pos i)
        simp at h0
        subst h0
        rw [isNewerList_cons]
        exact ih cs ns a b (fun j hj => hpre (j + 1) (Nat.succ_lt_succ hj))
          (by simpa using ha) (by simpa using hb) hab

/-- C1 counterexample: the claim states that `IsNewVersionAvailable`
returns false in both directions for "1.2" versus "1.2.0"; at exactly
those inputs the code returns true for `IsNewer("1.2","1.2.0")`, so the
claimed conjunction is false. -/
theorem isNewer_equal_prefix_both_false_refuted :
    decide (IsNewVersionAvailable "1.2" "1.2.0" = some false ∧
            IsNewVersionAvailable "1.2.0" "1.2" = some false) = false := by
  decide

/-- C1 (amended): for two dotted version strings with an equal common
prefix but different lengths, the longer one is treated as newer:
`IsNewer("1.2","1.2.0") == true` and `IsNewer("1.2.0","1.2") == false`. -/
theorem isNewer_equal_prefix_longer_wins :
    IsNewVersionAvailable "1.2" "1.2.0" = some true ∧
    IsNewVersionAvailable "1.2.0" "1.2" = some false := by
  decide

/-- C2: `IsNewVersionAvailable` compares dotted versions as integer tuples
component-wise (numerically): whenever the parsed tuples first differ at
index `i`, the result is true iff the new component there is strictly
greater; in particular `IsNewer("1.2.0","1.2.1") == true` and
`IsNewer("1.10.0","1.9.9") == false`. -/
theorem isNewVersionAvailable_numeric_tuple_compare :
    (∀ (v1 v2 : String) (c n : List Int) (i : Nat) (a b : Int),
        ParseVersion v1 = some c → ParseVersion v2 = some n →
        (∀ j, j < i → c.get? j = n.get? j) →
        c.get? i = some a → n.get? i = some b → a ≠ b →
        IsNewVersionAvailable v1 v2 = some (decide (a < b)))
    ∧ IsNewVersionAvailable "1.2.0" "1.2.1" = some true
    ∧ IsNewVersionAvailable "1.10.0" "1.9.9" = some false := by
  refine ⟨?_, by decide, by decide⟩
  intro v1 v2 c n i a b h1 h2 hpre ha hb hab
  simp [IsNewVersionAvailable, h1, h2]
  exact isNewerList_first_diff i c n a b hpre ha hb hab

/-- Witness for C2: the general component-wise statement applied at
`"1.10.0"` versus `"1.9.9"`, whose tuples first differ at index 1 with
10 against 9 (a numeric, not lexicographic, comparison). -/
theorem isNewVersionAvailable_numeric_tuple_compare_witness :
    IsNewVersionAvailable "1.10.0" "1.9.9" = some false := by
  have h := isNewVersionAvailable_numeric_tuple_compare.1 "1.10.0" "1.9.9"
    [1, 10, 0] [1, 9, 9] 1 10 9 (by decide) (by decide)
    (by
      intro j hj
      have hj0 : j = 0 := by omega
      subst hj0
      decide)
    (by decide) (by decide) (by decide)
  simpa using h

/-- The conversion loop throws iff some segment cannot be converted. -/
lemma stoiAll_eq_none_iff (l : List String) :
    stoiAll l = none ↔ ∃ s ∈ l, stoi? s = none := by
  induction l with
  | nil => simp [stoiAll]
  | cons s rest ih =>
    cases h : stoi? s with
    | none =>
      simp [stoiAll, h]
    | some v =>
      cases h2 : stoiAll rest with
      | none =>
        simp only [stoiAll, h, h2]
        simp [h]
        obtain ⟨x, hx, hxn⟩ := ih.mp h2
        exact ⟨x, hx, hxn⟩
      | some vs =>
        simp only [stoiAll, h, h2]
        simp [h]
        intro x hx
        have : ¬ (stoiAll rest = none) := by simp [h2]
        rw [ih] at this
        push_neg at this
        exact this x hx

/-- A `std::stoi` exception in either argument escapes from
`IsNewVersionAvailable`. -/
lemma isNewVersionAvailable_none_of_parse_none (c n : String)
    (h : ParseVersion c = none ∨ ParseVersion n = none) :
    IsNewVersionAvailable c n = none := by
  rcases h with h | h
  · simp [IsNewVersionAvailable, h]
  · cases h2 : ParseVersion c <;> simp [IsNewVersionAvailable, h, h2]

/-- C10: `ParseVersion` applies `std::stoi` to every dot-separated segment
unguarded, so it throws (returns `none` in this embedding) exactly when
some segment has no convertible integer (empty or not starting with a
number), and such an exception makes `IsNewVersionAvailable` undefined
(no comparison result) whenever either version string has such a
segment. -/
theorem parseVersion_undefined_on_invalid_segment :
    (∀ v : String, ParseVersion v = none ↔ ∃ s ∈ splitOnDot v, stoi? s = none)
    ∧ (∀ c n : String,
        ParseVersion c = none ∨ ParseVersion n = none →
        IsNewVersionAvailable c n = none) := by
  constructor
  · intro v
    exact stoiAll_eq_none_iff (splitOnDot v)
  · exact isNewVersionAvailable_none_of_parse_none

/-! ## Theorems: version-check loop (claim C3) -/

/-- C3: starting from a fresh retry counter, the version-check loop exits
with retries exhausted after exactly 10 consecutive `CheckVersion`
failures, with its 9 intermediate backoffs as the only actions — in
particular no `SetDeviceState(kDeviceStateUpgrading)` and no
`StartUpgrade` ever ran — and any successful poll makes the loop behave
as if the retry counter were zero (the `retry_count = 0` reset). -/
theorem checkNewVersion_retry_exhaustion :
    checkNewVersionLoop 0 (List.replicate 10 .fail) =
      (.retriesExhausted, List.replicate 9 .backoff60s)
    ∧ OtaAction.setState .kDeviceStateUpgrading ∉
        (checkNewVersionLoop 0 (List.replicate 10 .fail)).2
    ∧ OtaAction.startUpgrade ∉ (checkNewVersionLoop 0 (List.replicate 10 .fail)).2
    ∧ (∀ (retry : Nat) (o : CheckOutcome) (rest : List CheckOutcome),
        o ≠ .fail →
        checkNewVersionLoop retry (o :: rest) = checkNewVersionLoop 0 (o :: rest)) := by
  refine ⟨by decide, by decide, by decide, ?_⟩
  intro retry o rest ho
  cases o with
  | fail => exact absurd rfl ho
  | okNew => rfl
  | okActivation => rfl
  | okLatest => rfl

/-- Witness for C3: a poll success with an activation code after 7
failed polls continues exactly as it would with a zero retry counter. -/
theorem checkNewVersion_retry_exhaustion_witness :
    checkNewVersionLoop 7 [.okActivation] = checkNewVersionLoop 0 [.okActivation] :=
  checkNewVersion_retry_exhaustion.2.2.2 7 .okActivation [] (by decide)

/-! ## Theorems: websocket handshake (claim C4) -/

/-- C4: when the transport connected but no server "hello" event arrives
within the 10 s wait, `OpenAudioChannel` returns false, records the
server-timeout error, and does not invoke the audio-channel-opened
callback; that callback is invoked only on the success path. -/
theorem openAudioChannel_timeout_no_callback (env : WsEnv)
    (hc : env.connectOk = true) (hh : env.helloWithin10s = false) :
    OpenAudioChannel env =
      { success := false, error := some .serverTimeout,
        helloSent := true, openedCallbackInvoked := false }
    ∧ (∀ env' : WsEnv, (OpenAudioChannel env').openedCallbackInvoked = true →
        (OpenAudioChannel env').success = true) := by
  constructor
  · simp [OpenAudioChannel, hc, hh]
  · intro env' h
    rcases env' with ⟨c, hello, cb⟩
    cases c <;> cases hello <;> simp_all [OpenAudioChannel]

/-- Witness for C4: a connected session whose 10 s hello wait elapses with
a registered callback — the call fails with a timeout error and the
callback does not fire. -/
theorem openAudioChannel_timeout_no_callback_witness :
    OpenAudioChannel ⟨true, false, true⟩ =
      { success := false, error := some .serverTimeout,
        helloSent := true, openedCallbackInvoked := false } :=
  (openAudioChannel_timeout_no_callback ⟨true, false, true⟩ rfl rfl).1

/-! ## Theorems: device state machine (claims C5, C6, C7, C8) -/

/-- After any `SetDeviceState(s)` call, `device_state_` equals `s`. -/
lemma setDeviceState_state_eq (cfg : Bool) (now : Nat) (s : DeviceState)
    (st : AppState) : (SetDeviceState cfg now s st).1.device_state = s := by
  by_cases h : st.device_state = s
  · simp [SetDeviceState, h]
  · cases s <;> simp [SetDeviceState, h, ResetDecoder]

/-- Requesting the current state is a pure no-op. -/
lemma setDeviceState_noop (cfg : Bool) (now : Nat) (s : DeviceState)
    (st : AppState) (h : st.device_state = s) :
    SetDeviceState cfg now s st = (st, []) := by
  simp [SetDeviceState, h]

/-- C5: `SetDeviceState` is idempotent — when the requested state equals
the current one the call is a pure no-op (state unchanged, no tick reset,
no background wait, no entry actions), so a second call with the same
state right after a first performs the entry actions exactly once. -/
theorem setDeviceState_idempotent (cfg : Bool) (now now2 : Nat)
    (s : DeviceState) (st : AppState) :
    (st.device_state = s → SetDeviceState cfg now s st = (st, []))
    ∧ SetDeviceState cfg now2 s (SetDeviceState cfg now s st).1 =
        ((SetDeviceState cfg now s st).1, []) := by
  exact ⟨setDeviceState_noop cfg now s st,
    setDeviceState_noop cfg now2 s _ (setDeviceState_state_eq cfg now s st)⟩

/-- Witness for C5: setting `Idle` on a device already `Idle` leaves the
state record untouched and performs no collaborator call. -/
theorem setDeviceState_idempotent_witness :
    SetDeviceState true 0 .kDeviceStateIdle
        ⟨.kDeviceStateIdle, 5, [[1, 2]], 3, false, false⟩ =
      (⟨.kDeviceStateIdle, 5, [[1, 2]], 3, false, false⟩, []) :=
  (setDeviceState_idempotent true 0 1 .kDeviceStateIdle
    ⟨.kDeviceStateIdle, 5, [[1, 2]], 3, false, false⟩).1 rfl

/-- C6: whenever the transition into `Listening` actually runs its entry
actions (the device was in any other state, whatever the decode queue
held), the entry action's `ResetDecoder` leaves the decode queue empty,
the decoder state reset, and the silence timer restarted at `now`. -/
theorem setDeviceState_listening_clears_decode_queue (cfg : Bool) (now : Nat)
    (st : AppState) (h : st.device_state ≠ .kDeviceStateListening) :
    (SetDeviceState cfg now .kDeviceStateListening st).1.audio_decode_queue = []
    ∧ (SetDeviceState cfg now .kDeviceStateListening st).1.decoder_fresh = true
    ∧ (SetDeviceState cfg now .kDeviceStateListening st).1.last_output_time = now := by
  simp [SetDeviceState, h, ResetDecoder]

/-- Witness for C6: a device in `Speaking` with two queued frames moves to
`Listening` and the queue comes out empty with the timer reset. -/
theorem setDeviceState_listening_clears_decode_queue_witness :
    (SetDeviceState true 9 .kDeviceStateListening
        ⟨.kDeviceStateSpeaking, 4, [[1], [2, 3]], 7, false, false⟩).1.audio_decode_queue = []
    ∧ (SetDeviceState true 9 .kDeviceStateListening
        ⟨.kDeviceStateSpeaking, 4, [[1], [2, 3]], 7, false, false⟩).1.decoder_fresh = true
    ∧ (SetDeviceState true 9 .kDeviceStateListening
        ⟨.kDeviceStateSpeaking, 4, [[1], [2, 3]], 7, false, false⟩).1.last_output_time = 9 :=
  setDeviceState_listening_clears_decode_queue true 9
    ⟨.kDeviceStateSpeaking, 4, [[1], [2, 3]], 7, false, false⟩ (by decide)

/-- C7: `AbortSpeaking(reason)` sets the abort flag and sends the abort
notification carrying its reason as its only session interaction, and a
decode-worker closure that observes the flag set when it runs produces no
effect at all — neither the decode call nor any PCM write to the output
hardware; the in-flight frame is discarded. -/
theorem abortSpeaking_discards_inflight_audio (reason : AbortReason)
    (st : AppState) (decode : AudioFrame → Option (List Int))
    (mismatch : Bool) (resample : List Int → List Int) (opus : AudioFrame) :
    AbortSpeaking reason st =
      ({ st with aborted := true }, [.sendAbortSpeaking reason])
    ∧ decodeWorkerRun true decode mismatch resample opus = []
    ∧ (∀ pcm : List Int,
        Effect.outputData pcm ∉ decodeWorkerRun true decode mismatch resample opus) := by
  refine ⟨rfl, rfl, ?_⟩
  intro pcm
  simp [decodeWorkerRun]

/-- C8: an inbound binary session payload is appended to the decode queue
iff the device is in `Speaking` when the incoming-audio handler runs; in
every other state the handler leaves the application state untouched and
the frame is discarded. -/
theorem incoming_audio_enqueued_iff_speaking (data : AudioFrame) (st : AppState) :
    (st.device_state = .kDeviceStateSpeaking →
      wsRouteBinary true data st =
        { st with audio_decode_queue := st.audio_decode_queue ++ [data] })
    ∧ (st.device_state ≠ .kDeviceStateSpeaking → onIncomingAudio data st = st)
    ∧ ((onIncomingAudio data st).audio_decode_queue =
        st.audio_decode_queue ++ [data] ↔
        st.device_state = .kDeviceStateSpeaking) := by
  refine ⟨?_, ?_, ?_⟩
  · intro h
    simp [wsRouteBinary, onIncomingAudio, h]
  · intro h
    simp [onIncomingAudio, h]
  · by_cases h : st.device_state = .kDeviceStateSpeaking
    · simp [onIncomingAudio, h]
    · simp [onIncomingAudio, h]

/-- Witness for C8: a frame arriving while `Speaking` is appended at the
back of the queue. -/
theorem incoming_audio_enqueued_iff_speaking_witness :
    wsRouteBinary true [7]
        ⟨.kDeviceStateSpeaking, 0, [[1]], 0, false, false⟩ =
      ⟨.kDeviceStateSpeaking, 0, [[1], [7]], 0, false, false⟩ :=
  (incoming_audio_enqueued_iff_speaking [7]
    ⟨.kDeviceStateSpeaking, 0, [[1]], 0, false, false⟩).1 rfl

/-! ## Theorems: manifest processing (claim C9) -/

/-- System clock after `CheckVersion` processes a `server_time` object:
`settimeofday` runs exactly when a timestamp is present, with the declared
timezone offset (minutes) applied. -/
def clockAfter (sys : SysState) : Option (Option Int × Option Int) → Option Int
  | none => sys.clockMs
  | some (none, _) => sys.clockMs
  | some (some ts, tz?) => some (ts + tz?.getD 0 * 60 * 1000)

/-- Persisted mqtt settings after `CheckVersion` processes a `mqtt`
object: changed string entries are rewritten. -/
def settingsAfter (sys : SysState) : Option (List (String × String)) →
    List (String × String)
  | none => sys.mqttSettings
  | some entries => persistMqtt sys.mqttSettings entries

/-- C9: on a parseable manifest whose `firmware` object is missing (or is
missing its `version` or `url` member), `CheckVersion` returns false —
but not atomically: any present `server_time` has already been applied to
the system clock and any changed `mqtt` string entries have already been
persisted to settings before the failure return. -/
theorem checkVersion_early_false_after_side_effects (m : Manifest)
    (ota : OtaState) (sys : SysState)
    (hfw : m.firmware = none ∨ (∃ u, m.firmware = some (none, u))
      ∨ (∃ v, m.firmware = some (some v, none))) :
    (CheckVersionParsed m ota sys).map (fun r => (r.1, r.2.2)) =
      some (false,
        { clockMs := clockAfter sys m.server_time,
          mqttSettings := settingsAfter sys m.mqtt }) := by
  rcases m with ⟨act, mq, stime, fw⟩
  rcases hfw with hfw | ⟨u, hfw⟩ | ⟨v, hfw⟩ <;> subst hfw <;>
    rcases act with _ | ⟨msg, code⟩ <;>
    rcases mq with _ | entries <;>
    rcases stime with _ | ⟨ts?, tz?⟩ <;>
    try rcases ts? with _ | ts
  all_goals simp [CheckVersionParsed, clockAfter, settingsAfter]

/-- Witness for C9: a manifest with a changed mqtt endpoint and a server
time but no firmware object — the call fails, yet the clock was set (with
the 60-minute offset applied) and the endpoint rewritten. -/
theorem checkVersion_early_false_after_side_effects_witness :
    (CheckVersionParsed
        ⟨none, some [("endpoint", "x")], some (some 1000, some 60), none⟩
        ⟨"1.0.0", false, "", "", false, false, "", "", false⟩
        ⟨none, [("endpoint", "y")]⟩).map (fun r => (r.1, r.2.2)) =
      some (false, ⟨some 3601000, [("endpoint", "x")]⟩) := by
  have h := checkVersion_early_false_after_side_effects
    ⟨none, some [("endpoint", "x")], some (some 1000, some 60), none⟩
    ⟨"1.0.0", false, "", "", false, false, "", "", false⟩
    ⟨none, [("endpoint", "y")]⟩ (Or.inl rfl)
  simpa [clockAfter, settingsAfter, persistMqtt, getSetting, setSetting] using h

/-- Witness for C10: `"1..2"` has the empty segment `""` and `"1.x.2"`
has the non-numeric segment `"x"`; parsing throws and the comparison
yields no result. -/
theorem parseVersion_undefined_on_invalid_segment_witness :
    ParseVersion "1..2" = none ∧ IsNewVersionAvailable "1.x.2" "1.0" = none := by
  constructor
  · exact (parseVersion_undefined_on_invalid_segment.1 "1..2").2
      ⟨"", by decide, by decide⟩
  · exact parseVersion_undefined_on_invalid_segment.2 "1.x.2" "1.0"
      (Or.inl ((parseVersion_undefined_on_invalid_segment.1 "1.x.2").2
        ⟨"x", by decide, by decide⟩))

end Xiaozhi
